import Mathlib

/-!
Verification of the Dead-Simple-Infra backend (agent.py, server.py, crypto.py)
via a shallow embedding of its deployment, ingestion, fan-out, metrics and
secret-handling logic.
-/

namespace DSI

/-! ## Agent retry configuration and the connect loop (agent.py lines 34-77) -/

/-- agent.py line 35: `MAX_RETRIES = 3`. -/
def MAX_RETRIES : Nat := 3

/-- agent.py line 36: `INITIAL_BACKOFF = 2  # seconds`. -/
def INITIAL_BACKOFF : Nat := 2

/-- agent.py line 37: `MAX_BACKOFF = 60  # seconds`. -/
def MAX_BACKOFF : Nat := 60

/-- agent.py lines 57-77: in `Agent.connect`, the `except` branch of the
retry loop runs `await asyncio.sleep(5)` unconditionally, so the delay slept
after the n-th consecutive connection failure is the constant 5 seconds,
independent of n and of the backoff constants above. -/
def connectRetryDelay (_n : Nat) : Nat := 5

/-! ## Metrics sampling (agent.py lines 275-311) -/

/-- One container stats snapshot, as read by `Agent.metrics_loop`:
the cumulative CPU counters of the container (`cpu_stats.cpu_usage.total_usage`
and its previous sample `precpu_stats.cpu_usage.total_usage`) and of the whole
system (`system_cpu_usage` and its previous sample). -/
structure CpuStats where
  cpu_total : ℤ
  precpu_total : ℤ
  system_cpu : ℤ
  presystem_cpu : ℤ
deriving DecidableEq

/-- agent.py lines 284-289: `cpu_delta` and `system_delta` are the differences
of the cumulative counters, and
`cpu_percent = (cpu_delta / system_delta) * 100.0 if system_delta > 0 else 0.0`. -/
def cpu_percent (s : CpuStats) : ℚ :=
  let cpu_delta : ℚ := (s.cpu_total : ℚ) - (s.precpu_total : ℚ)
  let system_delta : ℚ := (s.system_cpu : ℚ) - (s.presystem_cpu : ℚ)
  if 0 < system_delta then cpu_delta / system_delta * 100 else 0

/-- A snapshot actually produced by the container runtime: cumulative counters
are monotone between the previous and current sample, and the container's CPU
time delta never exceeds the whole system's CPU time delta (the container's
time is included in the system total). -/
def ValidStats (s : CpuStats) : Prop :=
  s.precpu_total ≤ s.cpu_total ∧
  s.cpu_total - s.precpu_total ≤ s.system_cpu - s.presystem_cpu

instance (s : CpuStats) : Decidable (ValidStats s) := by
  unfold ValidStats; infer_instance

/-! ## Image tag construction (agent.py line 166) -/

/-- agent.py line 166: `image_tag = f"dsi-{app_name}:{deployment_id[:8]}"`. -/
def image_tag (app_name deployment_id : String) : String :=
  "dsi-" ++ app_name ++ ":" ++ deployment_id.take 8

/-! ## Health endpoints (server.py lines 106-116) -/

/-- Possible responses of the readiness endpoint: the JSON body
`status`/`agents_count`, or an HTTPException with a status code and detail. -/
inductive ReadyzResp where
  | ok (status : String) (agents_count : Nat)
  | httpError (code : Nat) (detail : String)
deriving DecidableEq

/-- server.py lines 111-116: `readyz` raises a 503 HTTPException when
`len(active_agents) == 0`, and otherwise returns
`{"status": "ok", "agents_count": len(active_agents)}`.
The connected agents are modelled by the list of keys of `active_agents`. -/
def readyz (active_agents : List String) : ReadyzResp :=
  if active_agents.length = 0 then ReadyzResp.httpError 503 "No agents connected"
  else ReadyzResp.ok "ok" active_agents.length

/-- server.py lines 106-109: `healthz` always returns `{"status": "ok"}`,
with no reference to any state. -/
def healthz : String := "ok"

/-! ## Deployment orchestration (agent.py lines 127-237, `Agent.handle_deploy`) -/

/-- The fields of a `deploy` command (server.py lines 187-193). -/
structure DeployCmd where
  deployment_id : String
  app_id : String
  repo_url : String
  app_name : String
deriving DecidableEq

/-- What the agent records about a container it started: the container id and
the host port bound to container port 8080 (None when no binding exists). -/
structure ContainerInfo where
  cid : String
  hostPort : Option Nat
deriving DecidableEq

/-- Messages the agent sends to the console (`send_status_update`, `send_log`,
`send_message` with type deployment_complete), agent.py lines 108-125, 219-226.
Timestamps are omitted: no claim concerns them. -/
inductive AgentMsg where
  | statusUpdate (app_id deployment_id status : String)
  | log (app_id deployment_id text : String)
  | deploymentComplete (app_id deployment_id : String) (port : Option Nat)
      (url : Option String) (container_id : String)
deriving DecidableEq

/-- Outcomes of the external steps `handle_deploy` performs, in the order the
code performs them. Each `Except` carries the `str(e)` of the exception the
step would raise. `cloneResult` is either an exception (e.g. timeout) or the
pair (returncode, stderr) of the `git clone` subprocess; `buildResult` is the
list of `stream` lines of the docker build output; `runResult` is the outcome
of `docker_client.containers.run`; `reloadResult` covers `container.reload()`
and the port lookup. `oldStopOk` is the best-effort stop of a pre-existing
container (its failure is only logged locally, agent.py lines 184-190). -/
structure DeployEnv where
  workspaceOk : Except String Unit
  cloneResult : Except String (Int × String)
  dockerfileExists : Bool
  buildResult : Except String (List String)
  oldStopOk : Bool
  runResult : Except String ContainerInfo
  reloadResult : Except String Unit

/-- Result of one `handle_deploy` run: the messages sent to the console in
order, the new `running_containers` map (association list keyed by app id,
python-dict update semantics), and whether `docker_client.containers.run`
was reached and created a container. -/
structure DeployResult where
  msgs : List AgentMsg
  containers : List (String × ContainerInfo)
  containerCreated : Bool
deriving DecidableEq

/-- Python dict assignment `d[k] = v`: overwrite in place if the key exists,
otherwise append. -/
def dictSet (m : List (String × ContainerInfo)) (k : String) (v : ContainerInfo) :
    List (String × ContainerInfo) :=
  if m.any (fun p => p.1 = k) then
    m.map (fun p => if p.1 = k then (k, v) else p)
  else m ++ [(k, v)]

/-- agent.py lines 233-237: the `except` clause of `handle_deploy` sends the
log line `"Deployment failed: " ++ str(e)` and then a status_update with
status "failed"; `pre` is whatever was already sent before the exception. -/
def deployFail (cmd : DeployCmd) (pre : List AgentMsg)
    (containers : List (String × ContainerInfo)) (created : Bool) (e : String) :
    DeployResult :=
  { msgs := pre ++ [AgentMsg.log cmd.app_id cmd.deployment_id ("Deployment failed: " ++ e),
                    AgentMsg.statusUpdate cmd.app_id cmd.deployment_id "failed"],
    containers := containers,
    containerCreated := created }

/-- Display of an `Option` value inside a python f-string (`None` for absent),
agent.py lines 213-216. -/
def pyShowNat (o : Option Nat) : String :=
  match o with
  | none => "None"
  | some n => toString n

/-- Display of an optional string inside a python f-string. -/
def pyShowStr (o : Option String) : String :=
  match o with
  | none => "None"
  | some s => s

/-- agent.py lines 127-237, `Agent.handle_deploy`, over the step outcomes in
`env` and the current `running_containers` map. Follows the source line by
line: status building + start log; workspace prep; clone (raising
`"Git clone failed: " ++ stderr` on non-zero exit); Dockerfile check (raising
`"Dockerfile not found in repository"`); image build with one log line per
non-empty stripped `stream` entry; best-effort stop of the old container
(never aborts, sends nothing); `containers.run` followed by
`running_containers[app_id] = container`; reload + port lookup; success logs,
`deployment_complete`, status running. Any raised step lands in `deployFail`. -/
def handle_deploy (env : DeployEnv) (running : List (String × ContainerInfo))
    (cmd : DeployCmd) : DeployResult :=
  let m0 := [AgentMsg.statusUpdate cmd.app_id cmd.deployment_id "building",
             AgentMsg.log cmd.app_id cmd.deployment_id
               ("Starting deployment for " ++ cmd.app_name)]
  match env.workspaceOk with
  | Except.error e => deployFail cmd m0 running false e
  | Except.ok _ =>
    let m1 := m0 ++ [AgentMsg.log cmd.app_id cmd.deployment_id
                      ("Cloning repository: " ++ cmd.repo_url)]
    match env.cloneResult with
    | Except.error e => deployFail cmd m1 running false e
    | Except.ok (rc, stderr) =>
      if rc ≠ 0 then deployFail cmd m1 running false ("Git clone failed: " ++ stderr)
      else
        let m2 := m1 ++ [AgentMsg.log cmd.app_id cmd.deployment_id
                          "Repository cloned successfully"]
        if ¬ env.dockerfileExists then
          deployFail cmd m2 running false "Dockerfile not found in repository"
        else
          let tag := image_tag cmd.app_name cmd.deployment_id
          let m3 := m2 ++ [AgentMsg.log cmd.app_id cmd.deployment_id
                            ("Building Docker image: " ++ tag)]
          match env.buildResult with
          | Except.error e => deployFail cmd m3 running false e
          | Except.ok lines =>
            let buildMsgs := ((lines.map String.trim).filter (fun l => l ≠ "")).map
              (AgentMsg.log cmd.app_id cmd.deployment_id)
            let m4 := m3 ++ buildMsgs ++ [AgentMsg.log cmd.app_id cmd.deployment_id
                            "Docker image built successfully"]
            let m5 := m4 ++ [AgentMsg.log cmd.app_id cmd.deployment_id
                              "Starting container..."]
            match env.runResult with
            | Except.error e => deployFail cmd m5 running false e
            | Except.ok c =>
              let running1 := dictSet running cmd.app_id c
              match env.reloadResult with
              | Except.error e => deployFail cmd m5 running1 true e
              | Except.ok _ =>
                let url := c.hostPort.map (fun p => "http://localhost:" ++ toString p)
                { msgs := m5 ++
                    [AgentMsg.log cmd.app_id cmd.deployment_id
                       ("Container started successfully on port " ++ pyShowNat c.hostPort),
                     AgentMsg.log cmd.app_id cmd.deployment_id
                       ("Application URL: " ++ pyShowStr url),
                     AgentMsg.deploymentComplete cmd.app_id cmd.deployment_id
                       c.hostPort url c.cid,
                     AgentMsg.statusUpdate cmd.app_id cmd.deployment_id "running"],
                  containers := running1,
                  containerCreated := true }

/-- The `str(e)` of the first exception `handle_deploy` raises over `env`, in
the order the code executes the steps, or `none` when every step succeeds. -/
def firstError (env : DeployEnv) : Option String :=
  match env.workspaceOk with
  | Except.error e => some e
  | Except.ok _ =>
    match env.cloneResult with
    | Except.error e => some e
    | Except.ok (rc, stderr) =>
      if rc ≠ 0 then some ("Git clone failed: " ++ stderr)
      else if ¬ env.dockerfileExists then some "Dockerfile not found in repository"
      else
        match env.buildResult with
        | Except.error e => some e
        | Except.ok _ =>
          match env.runResult with
          | Except.error e => some e
          | Except.ok _ =>
            match env.reloadResult with
            | Except.error e => some e
            | Except.ok _ => none

/-- A concrete deploy environment whose repository fetch fails with a
non-zero `git clone` exit code; every later step would succeed. -/
def cloneFailEnv : DeployEnv :=
  { workspaceOk := Except.ok ()
    cloneResult := Except.ok (128, "fatal: unable to access repo")
    dockerfileExists := true
    buildResult := Except.ok []
    oldStopOk := true
    runResult := Except.ok ⟨"c1", some 32768⟩
    reloadResult := Except.ok () }

/-- A concrete deploy command. -/
def demoCmd : DeployCmd :=
  { deployment_id := "d1", app_id := "app1", repo_url := "https://bad/repo.git",
    app_name := "demo" }

/-! ## Control-plane ingestion (server.py lines 299-372, `agent_websocket`) -/

/-- Inbound agent events as consumed by the websocket ingestion loop
(server.py lines 309-364). Log and metrics payloads are kept only to the
fields the handler reads. -/
inductive InEvent where
  | log (app_id deployment_id text : String)
  | statusUpdate (app_id : String) (deployment_id : Option String) (status : String)
  | metrics (app_id : String) (cpu_percent memory_mb : ℚ)
  | deploymentComplete (app_id deployment_id : String) (port : Option Nat)
      (url : Option String)
deriving DecidableEq

/-- The authoritative records the ingestion loop mutates: app statuses and
deployment statuses, keyed by id (`db.apps` / `db.deployments`,
`update_one` on `{"id": ...}`). -/
structure ConsoleState where
  appStatus : List (String × String)
  depStatus : List (String × String)
deriving DecidableEq

/-- Mongo `update_one({"id": k}, {"$set": {"status": v}})`: overwrite the
status of the record with id k when it exists, otherwise do nothing. -/
def setStatus (m : List (String × String)) (k v : String) :
    List (String × String) :=
  m.map (fun p => if p.1 = k then (k, v) else p)

/-- server.py lines 309-364: one iteration of the ingestion loop. A `log`
event only feeds the fan-out (modelled separately); a `status_update`
overwrites the app status and, when a deployment id is present, the
deployment status, with the event's status; `metrics` only appends a sample;
`deployment_complete` sets both statuses to "running". -/
def ingest (st : ConsoleState) (ev : InEvent) : ConsoleState :=
  match ev with
  | InEvent.log _ _ _ => st
  | InEvent.statusUpdate app_id dep_id status =>
    { appStatus := setStatus st.appStatus app_id status,
      depStatus := match dep_id with
        | none => st.depStatus
        | some d => setStatus st.depStatus d status }
  | InEvent.metrics _ _ _ => st
  | InEvent.deploymentComplete app_id dep_id _ _ =>
    { appStatus := setStatus st.appStatus app_id "running",
      depStatus := setStatus st.depStatus dep_id "running" }

/-- The deployment status transitions the spec allows: pending→building,
building→running, building→failed, and running→stopped (the latter only via
an explicit stop command). -/
def allowedStep (old new : String) : Bool :=
  (old == "pending" && new == "building") ||
  (old == "building" && (new == "running" || new == "failed")) ||
  (old == "running" && new == "stopped")

/-! ## Deployment triggering (server.py lines 164-197, `trigger_deployment`) -/

/-- An app record as read by `trigger_deployment` (`db.apps.find_one`). -/
structure AppRec where
  id : String
  name : String
  repo_url : String
  status : String
deriving DecidableEq

/-- A deployment record as created by `trigger_deployment`. -/
structure DepRec where
  id : String
  app_id : String
  status : String
deriving DecidableEq

/-- server.py lines 164-197: `trigger_deployment`. Returns 404 when the app
does not exist; otherwise inserts a deployment record with status "pending",
sets the app's status to "building", and, when `active_agents` is non-empty,
sends the deploy command to `list(active_agents.values())[0]` — the first
agent in the dict's iteration order — and to no other agent. A send failure
is caught and only logged, and no agent being connected sends nothing; in
both cases the endpoint still returns the deployment record. `new_id` is the
uuid generated for the deployment record. -/
def trigger_deployment (apps : List AppRec) (deployments : List DepRec)
    (agents : List String) (app_id new_id : String) :
    Except Nat (List DepRec × List AppRec × List (String × DeployCmd) × DepRec) :=
  match apps.find? (fun a => a.id = app_id) with
  | none => Except.error 404
  | some app =>
    let dep : DepRec := ⟨new_id, app_id, "pending"⟩
    let apps1 := apps.map (fun a => if a.id = app_id then
      { a with status := "building" } else a)
    let sent : List (String × DeployCmd) :=
      match agents with
      | [] => []
      | g :: _ => [(g, ⟨new_id, app_id, app.repo_url, app.name⟩)]
    Except.ok (deployments ++ [dep], apps1, sent, dep)

/-! ## Log fan-out (server.py lines 312-317 and 375-399) -/

/-- One log event as fanned out to subscribers. -/
structure LogEv where
  app_id : String
  deployment_id : String
  text : String
deriving DecidableEq

/-- The `log_subscribers` dict: app id → list of subscriber queues, a queue
being identified by a number (queues are distinct python objects). A key may
be present with an empty list (subscription leaves the key behind). -/
abbrev Subs : Type := List (String × List Nat)

/-- Queue contents: queue id → the list of events it holds, oldest first. -/
abbrev Queues : Type := Nat → List LogEv

/-- `log_subscribers[app_id] = [...]` dict write used below. -/
def setSubs (subs : Subs) (app_id : String) (qs : List Nat) : Subs :=
  List.map (fun p => if p.1 = app_id then (app_id, qs) else p) subs

/-- server.py lines 312-317: on a `log` event, if the event's app id is a key
of `log_subscribers`, `queue.put` the event on every queue in that key's
list (once per occurrence), and otherwise drop it. Queues not in the list
are untouched. -/
def broadcastLog (subs : Subs) (queues : Queues) (e : LogEv) : Queues :=
  match List.lookup e.app_id subs with
  | none => queues
  | some qs => fun n => queues n ++ List.replicate (qs.count n) e

/-- server.py lines 378-382: a new SSE consumer for `app_id` creates a fresh
queue and appends it to `log_subscribers[app_id]`, creating the key with an
empty list first when absent. -/
def subscribe (subs : Subs) (app_id : String) (q : Nat) : Subs :=
  match List.lookup app_id subs with
  | none => subs ++ [(app_id, [q])]
  | some qs => setSubs subs app_id (qs ++ [q])

/-- server.py lines 388-390: on consumer cancellation, remove that consumer's
queue from `log_subscribers[app_id]` (python `list.remove`: delete the first
occurrence; guarded, so absent key or absent queue changes nothing). -/
def unsubscribe (subs : Subs) (app_id : String) (q : Nat) : Subs :=
  match List.lookup app_id subs with
  | none => subs
  | some qs => setSubs subs app_id (qs.erase q)

/-! ## Secrets (crypto.py and server.py lines 265-268) -/

/-- A stored secret record (server.py `Secret` model); `created_at` is kept
as its serialized string. -/
structure Secret where
  id : String
  app_id : String
  key : String
  encrypted_value : String
  created_at : String
deriving DecidableEq

/-- A row of the `get_secrets` response: the Mongo projection
`{"_id": 0, "encrypted_value": 0}` leaves exactly these fields. -/
structure SecretView where
  id : String
  app_id : String
  key : String
  created_at : String
deriving DecidableEq

/-- The field projection performed by `{"_id": 0, "encrypted_value": 0}`. -/
def projectSecret (s : Secret) : SecretView :=
  ⟨s.id, s.app_id, s.key, s.created_at⟩

/-- server.py lines 265-268: `get_secrets` returns the secrets of the app,
with `_id` and `encrypted_value` projected away, capped at 100 rows
(`to_list(100)`). -/
def get_secrets (store : List Secret) (app_id : String) : List SecretView :=
  ((store.filter (fun s => s.app_id = app_id)).take 100).map projectSecret

/-- Two stores differ at most in the `encrypted_value` of corresponding
entries: same length, and entry-wise equal `id`, `app_id`, `key`,
`created_at`. -/
def SameButCiphertext (s1 s2 : List Secret) : Prop :=
  List.Forall₂ (fun x y => x.id = y.id ∧ x.app_id = y.app_id ∧
    x.key = y.key ∧ x.created_at = y.created_at) s1 s2

/-! ## Secret encryption round-trip (crypto.py lines 20-51)

The AES-GCM cipher, the base64 codec and the utf-8 codec are external
library collaborators (the `cryptography` and `base64` modules); crypto.py
contributes the packaging around them: both sides derive the same key from
the same master key and salt, encryption prepends the 12-byte nonce to the
ciphertext before encoding, and decryption splits the decoded bytes at
offset 12. They are therefore parameters here, constrained only by their
inverse contracts, while the packaging is embedded from the source. -/

/-- A byte. -/
abbrev Byte : Type := Fin 256

/-- crypto.py lines 20-33, `encrypt_secret`: with `key = get_encryption_key()`
and a nonce from `os.urandom(12)`, return
`b64encode(nonce + AESGCM(key).encrypt(nonce, plaintext, None))`. -/
def encrypt_secret (aesEnc : List Byte → List Byte → List Byte → List Byte)
    (b64encode : List Byte → List Byte) (key nonce plaintext : List Byte) :
    List Byte :=
  b64encode (nonce ++ aesEnc key nonce plaintext)

/-- crypto.py lines 35-51, `decrypt_secret`: with the same derived key,
decode base64, split the first 12 bytes off as the nonce, and decrypt the
rest. -/
def decrypt_secret (aesDec : List Byte → List Byte → List Byte → List Byte)
    (b64decode : List Byte → List Byte) (key : List Byte)
    (encrypted_data : List Byte) : List Byte :=
  let encrypted_bytes := b64decode encrypted_data
  let nonce := encrypted_bytes.take 12
  let ciphertext := encrypted_bytes.drop 12
  aesDec key nonce ciphertext

/-! ## Theorems -/

/-- The last element of a list that ends in two explicit elements. -/
theorem getLast?_append_two {α : Type} (xs : List α) (a b : α) :
    (xs ++ [a, b]).getLast? = some b := by
  have h : xs ++ [a, b] = (xs ++ [a]) ++ [b] := by simp
  rw [h, List.getLast?_concat]

/-- The except-clause of handle_deploy: whatever prefix of messages was
already sent, the run ends by sending the failure log carrying the error text
and then the terminal "failed" status, and sends nothing else. -/
theorem deployFail_props (cmd : DeployCmd) (pre : List AgentMsg)
    (cont : List (String × ContainerInfo)) (created : Bool) (e : String)
    (h1 : AgentMsg.statusUpdate cmd.app_id cmd.deployment_id "running" ∉ pre)
    (h2 : ∀ a d p u ci, AgentMsg.deploymentComplete a d p u ci ∉ pre) :
    AgentMsg.log cmd.app_id cmd.deployment_id ("Deployment failed: " ++ e) ∈
      (deployFail cmd pre cont created e).msgs ∧
    (deployFail cmd pre cont created e).msgs.getLast? =
      some (AgentMsg.statusUpdate cmd.app_id cmd.deployment_id "failed") ∧
    AgentMsg.statusUpdate cmd.app_id cmd.deployment_id "running" ∉
      (deployFail cmd pre cont created e).msgs ∧
    ∀ a d p u ci, AgentMsg.deploymentComplete a d p u ci ∉
      (deployFail cmd pre cont created e).msgs := by
  refine ⟨?_, ?_, ?_, ?_⟩
  · simp [deployFail]
  · exact getLast?_append_two _ _ _
  · intro hmem
    rcases List.mem_append.mp hmem with hpre | hlast
    · exact h1 hpre
    · simp at hlast
  · intro a d p u ci hmem
    rcases List.mem_append.mp hmem with hpre | hlast
    · exact h2 a d p u ci hpre
    · simp at hlast

/-- C1: if any step of handle_deploy raises an exception (error text e), the
run emits a log message containing e, ends with a status_update "failed" for
that deployment (never "running", and no deployment_complete is sent); and in
the specific case of a repository-fetch failure (non-zero clone exit), no
container is created, the container map is unchanged, and the messages are
exactly the two startup messages, the clone log, the failure log carrying the
git error, and the terminal "failed" status. -/
theorem C1_deploy_failure_aborts (env : DeployEnv)
    (running : List (String × ContainerInfo)) (cmd : DeployCmd) (e : String)
    (h : firstError env = some e) :
    (AgentMsg.log cmd.app_id cmd.deployment_id ("Deployment failed: " ++ e) ∈
        (handle_deploy env running cmd).msgs ∧
      (handle_deploy env running cmd).msgs.getLast? =
        some (AgentMsg.statusUpdate cmd.app_id cmd.deployment_id "failed") ∧
      AgentMsg.statusUpdate cmd.app_id cmd.deployment_id "running" ∉
        (handle_deploy env running cmd).msgs ∧
      ∀ a d p u ci, AgentMsg.deploymentComplete a d p u ci ∉
        (handle_deploy env running cmd).msgs) ∧
    (∀ rc stderr, env.workspaceOk = Except.ok () →
      env.cloneResult = Except.ok (rc, stderr) → rc ≠ 0 →
      (handle_deploy env running cmd).containerCreated = false ∧
      (handle_deploy env running cmd).containers = running ∧
      (handle_deploy env running cmd).msgs =
        [AgentMsg.statusUpdate cmd.app_id cmd.deployment_id "building",
         AgentMsg.log cmd.app_id cmd.deployment_id
           ("Starting deployment for " ++ cmd.app_name),
         AgentMsg.log cmd.app_id cmd.deployment_id
           ("Cloning repository: " ++ cmd.repo_url),
         AgentMsg.log cmd.app_id cmd.deployment_id
           ("Deployment failed: Git clone failed: " ++ stderr),
         AgentMsg.statusUpdate cmd.app_id cmd.deployment_id "failed"]) := by
  obtain ⟨ws, cl, df, br, os, rr, ro⟩ := env
  constructor
  · cases ws with
    | error e1 =>
      simp only [firstError, Option.some.injEq] at h
      subst h
      simp only [handle_deploy]
      exact deployFail_props _ _ _ _ _ (by simp) (by simp)
    | ok u =>
      cases u
      cases cl with
      | error e1 =>
        simp only [firstError, Option.some.injEq] at h
        subst h
        exact deployFail_props _ _ _ _ _ (by simp) (by simp)
      | ok p =>
        obtain ⟨rc, stderr⟩ := p
        by_cases hrc : rc ≠ 0
        · simp only [firstError, if_pos hrc, Option.some.injEq] at h
          subst h
          simp only [handle_deploy, if_pos hrc]
          exact deployFail_props _ _ _ _ _ (by simp) (by simp)
        · cases df with
          | false =>
            simp only [firstError, if_neg hrc,
              if_pos (show ¬(false = true) by simp), Option.some.injEq] at h
            subst h
            simp only [handle_deploy, if_neg hrc,
              if_pos (show ¬(false = true) by simp)]
            exact deployFail_props _ _ _ _ _ (by simp) (by simp)
          | true =>
            cases br with
            | error e1 =>
              simp only [firstError, if_neg hrc,
                if_neg (show ¬¬(true = true) by simp), if_neg (show ¬¬True by simp), Option.some.injEq] at h
              subst h
              simp only [handle_deploy, if_neg hrc,
                if_neg (show ¬¬(true = true) by simp), if_neg (show ¬¬True by simp)]
              exact deployFail_props _ _ _ _ _ (by simp) (by simp)
            | ok lines =>
              cases rr with
              | error e1 =>
                simp only [firstError, if_neg hrc,
                  if_neg (show ¬¬(true = true) by simp), if_neg (show ¬¬True by simp), Option.some.injEq] at h
                subst h
                simp only [handle_deploy, if_neg hrc,
                  if_neg (show ¬¬(true = true) by simp), if_neg (show ¬¬True by simp)]
                exact deployFail_props _ _ _ _ _ (by simp) (by simp)
              | ok c =>
                cases ro with
                | error e1 =>
                  simp only [firstError, if_neg hrc,
                    if_neg (show ¬¬(true = true) by simp), if_neg (show ¬¬True by simp), Option.some.injEq] at h
                  subst h
                  simp only [handle_deploy, if_neg hrc,
                    if_neg (show ¬¬(true = true) by simp), if_neg (show ¬¬True by simp)]
                  exact deployFail_props _ _ _ _ _ (by simp) (by simp)
                | ok u2 =>
                  exact absurd h (by simp [firstError, if_neg hrc])
  · rintro rc stderr hws hcl hrc
    cases hws
    cases hcl
    simp only [handle_deploy, if_pos hrc]
    exact ⟨rfl, rfl, rfl⟩

/-- C1 witness: for the concrete environment where `git clone` exits with
code 128, no container is created, the run ends in status "failed", and the
failure log carries the git error text. -/
theorem C1_deploy_failure_aborts_witness :
    (handle_deploy cloneFailEnv [] demoCmd).containerCreated = false ∧
    (handle_deploy cloneFailEnv [] demoCmd).msgs.getLast? =
      some (AgentMsg.statusUpdate "app1" "d1" "failed") ∧
    AgentMsg.log "app1" "d1"
        "Deployment failed: Git clone failed: fatal: unable to access repo" ∈
      (handle_deploy cloneFailEnv [] demoCmd).msgs := by
  have h := C1_deploy_failure_aborts cloneFailEnv [] demoCmd
    "Git clone failed: fatal: unable to access repo" rfl
  have h2 := h.2 128 "fatal: unable to access repo" rfl rfl (by decide)
  exact ⟨h2.1, h.1.2.1, h.1.1⟩

/-- Updating the status of a record that exists yields exactly the new
status on lookup. -/
theorem lookup_map_set {β : Type} (m : List (String × β)) (k : String)
    (v old : β) (h : List.lookup k m = some old) :
    List.lookup k (List.map (fun p => if p.1 = k then (k, v) else p) m) =
      some v := by
  induction m with
  | nil => simp [List.lookup] at h
  | cons p t ih =>
    obtain ⟨a, b⟩ := p
    rw [List.map_cons]
    by_cases hak : a = k
    · subst hak
      rw [if_pos (show (a, b).1 = a from rfl)]
      simp [List.lookup]
    · rw [if_neg hak]
      have hka : (k == a) = false := beq_eq_false_iff_ne.mpr (Ne.symm hak)
      simp only [List.lookup, hka] at h ⊢
      exact ih h

/-- C2 counterexample: the ingestion handler, applied to a deployment record
in status "pending", accepts a status_update event carrying "stopped" and
overwrites the record with it, although pending→stopped is not an allowed
transition (and no stop command was involved). -/
theorem C2_counterexample :
    List.lookup "d1"
      (ingest ⟨[("app1", "building")], [("d1", "pending")]⟩
        (InEvent.statusUpdate "app1" (some "d1") "stopped")).depStatus =
      some "stopped" ∧
    allowedStep "pending" "stopped" = false := by decide

/-- C2 amended: the status overwrite on a status_update event is an
unvalidated last-write-wins: whatever the previous status of an existing
deployment record, after the event the record's status is exactly the
event's status (and likewise for the app record), so the
pending→building→(running,failed) invariant holds only for event sequences
that respect it themselves. -/
theorem C2_status_overwrite_lww (st : ConsoleState) (a d s old : String)
    (h : List.lookup d st.depStatus = some old) :
    List.lookup d
      (ingest st (InEvent.statusUpdate a (some d) s)).depStatus = some s := by
  simp only [ingest]
  exact lookup_map_set st.depStatus d s old h

/-- C2 witness: the last-write-wins overwrite applied at a concrete state. -/
theorem C2_status_overwrite_lww_witness :
    List.lookup "d1"
      (ingest ⟨[("app1", "running")], [("d1", "running")]⟩
        (InEvent.statusUpdate "app1" (some "d1") "building")).depStatus =
      some "building" :=
  C2_status_overwrite_lww ⟨[("app1", "running")], [("d1", "running")]⟩
    "app1" "d1" "building" "running" rfl

/-- C3: the delay the agent's connection loop sleeps after each failed
attempt is the constant 5 seconds: it does not start at the configured
INITIAL_BACKOFF of 2 seconds and does not double after a failure. The
backoff constants exist but are never consulted by the loop. -/
theorem C3_fixed_delay_not_backoff :
    connectRetryDelay 0 = 5 ∧ connectRetryDelay 1 = 5 ∧
    INITIAL_BACKOFF = 2 ∧ MAX_BACKOFF = 60 ∧
    connectRetryDelay 0 ≠ INITIAL_BACKOFF ∧
    connectRetryDelay 1 ≠ 2 * connectRetryDelay 0 := by decide

/-- C4: for every physically valid stats snapshot (monotone cumulative
counters, container delta bounded by system delta), the computed cpu_percent
lies in [0, 100]; and whenever the system delta is non-positive the guard
makes cpu_percent exactly 0, so no division by zero occurs. -/
theorem C4_cpu_percent_bounds (s : CpuStats) :
    (ValidStats s → 0 ≤ cpu_percent s ∧ cpu_percent s ≤ 100) ∧
    (s.system_cpu - s.presystem_cpu ≤ 0 → cpu_percent s = 0) := by
  constructor
  · intro h
    obtain ⟨h1, h2⟩ := h
    have hnum0 : (0 : ℚ) ≤ (s.cpu_total : ℚ) - (s.precpu_total : ℚ) := by
      rw [sub_nonneg]
      exact_mod_cast h1
    have hnum : (s.cpu_total : ℚ) - (s.precpu_total : ℚ) ≤
        (s.system_cpu : ℚ) - (s.presystem_cpu : ℚ) := by
      exact_mod_cast h2
    unfold cpu_percent
    by_cases hs : (0 : ℚ) < (s.system_cpu : ℚ) - (s.presystem_cpu : ℚ)
    · rw [if_pos hs]
      constructor
      · exact mul_nonneg (div_nonneg hnum0 (le_of_lt hs)) (by norm_num)
      · have hdiv : ((s.cpu_total : ℚ) - (s.precpu_total : ℚ)) /
            ((s.system_cpu : ℚ) - (s.presystem_cpu : ℚ)) ≤ 1 :=
          (div_le_one hs).mpr hnum
        calc ((s.cpu_total : ℚ) - (s.precpu_total : ℚ)) /
              ((s.system_cpu : ℚ) - (s.presystem_cpu : ℚ)) * 100
            ≤ 1 * 100 := by
              exact mul_le_mul_of_nonneg_right hdiv (by norm_num)
          _ = 100 := one_mul 100
    · rw [if_neg hs]
      norm_num
  · intro hle
    have hq : (s.system_cpu : ℚ) - (s.presystem_cpu : ℚ) ≤ 0 := by
      exact_mod_cast hle
    unfold cpu_percent
    rw [if_neg (not_lt.mpr hq)]

/-- C4 witness: a concrete snapshot (container delta 50, system delta 200)
gives a cpu_percent within bounds, and a concrete snapshot whose system
delta is zero gives cpu_percent 0. -/
theorem C4_cpu_percent_bounds_witness :
    (0 ≤ cpu_percent ⟨150, 100, 300, 100⟩ ∧
      cpu_percent ⟨150, 100, 300, 100⟩ ≤ 100) ∧
    cpu_percent ⟨150, 150, 300, 300⟩ = 0 := by
  refine ⟨(C4_cpu_percent_bounds ⟨150, 100, 300, 100⟩).1 (by decide), ?_⟩
  exact (C4_cpu_percent_bounds ⟨150, 150, 300, 300⟩).2 (by decide)

/-- C5 counterexample: the image tag actually carries a "dsi-" marker before
the application name, so it differs from `<app-name>:<prefix8>`; and two
distinct deployment ids sharing their first 8 characters yield the **same**
image tag, so distinct deployment ids alone do not guarantee distinct tags. -/
theorem C5_counterexample :
    image_tag "demo" "12345678-aaaa" ≠
      "demo" ++ ":" ++ ("12345678-aaaa" : String).take 8 ∧
    ("12345678-aaaa" : String) ≠ "12345678-bbbb" ∧
    image_tag "demo" "12345678-aaaa" = image_tag "demo" "12345678-bbbb" := by
  decide

/-- C5 amended: the image tag equals `dsi-<app-name>:<first 8 characters of
the deployment id>`, and two deployments of the same app produce distinct
tags whenever the first 8 characters of their deployment ids differ (which
uuid4 ids sharing an 8-character prefix do not). -/
theorem C5_image_tag_amended (name d1 d2 : String)
    (h : d1.take 8 ≠ d2.take 8) :
    image_tag name d1 = "dsi-" ++ name ++ ":" ++ d1.take 8 ∧
    image_tag name d1 ≠ image_tag name d2 := by
  refine ⟨rfl, ?_⟩
  intro hEq
  apply h
  have hd := congrArg String.data hEq
  simp only [image_tag, String.data_append] at hd
  exact String.ext (List.append_cancel_left hd)

/-- C5 witness: the amended tag shape and distinctness at concrete ids whose
8-character heads differ. -/
theorem C5_image_tag_amended_witness :
    image_tag "demo" "00000000-x" =
      "dsi-" ++ "demo" ++ ":" ++ ("00000000-x" : String).take 8 ∧
    image_tag "demo" "00000000-x" ≠ image_tag "demo" "11111111-y" :=
  C5_image_tag_amended "demo" "00000000-x" "11111111-y" (by decide)

/-- C6: when the app exists, trigger_deployment returns success (no error is
surfaced even with zero agents connected), appends a deployment record with
status "pending", sets the app record's status to "building"; with zero
agents the deploy command is sent to nobody, and with at least one agent it
is sent exactly to the first agent in the registry's iteration order. -/
theorem C6_trigger_deployment (apps : List AppRec) (deployments : List DepRec)
    (agents : List String) (app_id new_id : String) (app : AppRec)
    (happ : apps.find? (fun a => a.id = app_id) = some app) :
    ∃ apps1 sent,
      trigger_deployment apps deployments agents app_id new_id =
        Except.ok (deployments ++ [⟨new_id, app_id, "pending"⟩], apps1, sent,
          ⟨new_id, app_id, "pending"⟩) ∧
      (∀ a ∈ apps1, a.id = app_id → a.status = "building") ∧
      (agents = [] → sent = []) ∧
      (∀ g rest, agents = g :: rest →
        sent = [(g, ⟨new_id, app_id, app.repo_url, app.name⟩)]) := by
  refine ⟨apps.map (fun a => if a.id = app_id then
      { a with status := "building" } else a),
    (match agents with
      | [] => []
      | g :: _ => [(g, ⟨new_id, app_id, app.repo_url, app.name⟩)]),
    ?_, ?_, ?_, ?_⟩
  · simp only [trigger_deployment, happ]
  · intro a ha hid
    obtain ⟨b, hb, rfl⟩ := List.mem_map.mp ha
    by_cases hbid : b.id = app_id
    · simp [hbid]
    · rw [if_neg hbid] at hid ⊢
      exact absurd hid hbid
  · intro hag
    subst hag
    rfl
  · intro g rest hag
    subst hag
    rfl

/-- C6 witness: a one-app store with one connected agent: success, pending
record, building app status, and the command goes to that agent. -/
theorem C6_trigger_deployment_witness :
    ∃ apps1 sent,
      trigger_deployment [⟨"app1", "demo", "https://r.git", "idle"⟩] []
          ["agent-1"] "app1" "d1" =
        Except.ok ([⟨"d1", "app1", "pending"⟩], apps1, sent,
          ⟨"d1", "app1", "pending"⟩) ∧
      (∀ a ∈ apps1, a.id = "app1" → a.status = "building") ∧
      (["agent-1"] = ([] : List String) → sent = []) ∧
      (∀ g rest, ["agent-1"] = g :: rest →
        sent = [(g, ⟨"d1", "app1", "https://r.git", "demo"⟩)]) :=
  C6_trigger_deployment [⟨"app1", "demo", "https://r.git", "idle"⟩] []
    ["agent-1"] "app1" "d1" ⟨"app1", "demo", "https://r.git", "idle"⟩ rfl

/-- C7: for a log event whose app id has the (distinct) queues `qs`
registered: (1) every registered queue receives the event appended; (2) any
queue not registered for that app id is untouched; (3) with no registration
for the app id the event is dropped entirely; (4) unsubscribing queue q
removes exactly that one queue (the remaining list is `qs.erase q`, one
shorter when q was registered); and (5) after unsubscribing q, any other
subscriber q' still receives every subsequent event for the app. -/
theorem C7_log_fanout (subs : Subs) (queues : Queues) (e : LogEv)
    (qs : List Nat) (q q' : Nat)
    (hq : List.lookup e.app_id subs = some qs) (hnd : qs.Nodup) :
    (∀ n ∈ qs, broadcastLog subs queues e n = queues n ++ [e]) ∧
    (∀ n, n ∉ qs → broadcastLog subs queues e n = queues n) ∧
    (∀ subs2 : Subs, List.lookup e.app_id subs2 = none →
      broadcastLog subs2 queues e = queues) ∧
    (List.lookup e.app_id (unsubscribe subs e.app_id q) = some (qs.erase q) ∧
      (q ∈ qs → (qs.erase q).length + 1 = qs.length)) ∧
    (q' ∈ qs → q' ≠ q →
      broadcastLog (unsubscribe subs e.app_id q) queues e q' =
        queues q' ++ [e]) := by
  have hlook : List.lookup e.app_id (unsubscribe subs e.app_id q) =
      some (qs.erase q) := by
    unfold unsubscribe setSubs
    rw [hq]
    exact lookup_map_set subs e.app_id (qs.erase q) qs hq
  have hb : broadcastLog subs queues e =
      fun n => queues n ++ List.replicate (qs.count n) e := by
    unfold broadcastLog
    rw [hq]
  have hb2 : broadcastLog (unsubscribe subs e.app_id q) queues e =
      fun n => queues n ++ List.replicate ((qs.erase q).count n) e := by
    unfold broadcastLog
    rw [hlook]
  refine ⟨?_, ?_, ?_, ⟨hlook, ?_⟩, ?_⟩
  · intro n hn
    rw [hb]
    simp only [List.count_eq_one_of_mem hnd hn, List.replicate_one]
  · intro n hn
    rw [hb]
    simp only [List.count_eq_zero.mpr hn, List.replicate_zero, List.append_nil]
  · intro subs2 h2
    unfold broadcastLog
    rw [h2]
  · intro hmem
    have hlen := List.length_erase_of_mem hmem
    have hpos : 0 < qs.length := List.length_pos.mpr (by
      intro hnil
      rw [hnil] at hmem
      exact (List.not_mem_nil q) hmem)
    omega
  · intro hmem hne
    rw [hb2]
    simp only [List.count_eq_one_of_mem (hnd.erase q)
      ((List.mem_erase_of_ne hne).mpr hmem), List.replicate_one]

/-- C7 witness: two subscribers (queues 1 and 2) on app1; a log event lands
in queue 2, and after subscriber 1 cancels, queue 2 still receives the next
event. -/
theorem C7_log_fanout_witness :
    broadcastLog [("app1", [1, 2])] (fun _ => []) ⟨"app1", "d1", "hello"⟩ 2 =
      [⟨"app1", "d1", "hello"⟩] ∧
    broadcastLog (unsubscribe [("app1", [1, 2])] "app1" 1) (fun _ => [])
        ⟨"app1", "d1", "hello"⟩ 2 = [⟨"app1", "d1", "hello"⟩] := by
  have h := C7_log_fanout [("app1", [1, 2])] (fun _ => [])
    ⟨"app1", "d1", "hello"⟩ [1, 2] 1 2 rfl (by decide)
  exact ⟨h.1 2 (by decide), h.2.2.2.2 (by decide) (by decide)⟩

/-- C8: the readiness endpoint errors with 503 exactly when the set of
connected agents is empty; with at least one agent it returns ok together
with the count of connected agents; the liveness endpoint is the constant
ok. -/
theorem C8_health_endpoints (agents : List String) :
    (readyz agents = ReadyzResp.httpError 503 "No agents connected" ↔
      agents = []) ∧
    (agents ≠ [] → readyz agents = ReadyzResp.ok "ok" agents.length) ∧
    healthz = "ok" := by
  have hlen : agents = [] ↔ agents.length = 0 :=
    ⟨fun h => by simp [h], fun h => List.length_eq_zero.mp h⟩
  refine ⟨?_, ?_, rfl⟩
  · constructor
    · intro h
      by_contra hne
      have h0 : ¬ agents.length = 0 := fun h0 => hne (hlen.mpr h0)
      simp [readyz, h0] at h
    · intro h
      subst h
      rfl
  · intro hne
    have h0 : ¬ agents.length = 0 := fun h0 => hne (hlen.mpr h0)
    simp [readyz, h0]

/-- C8 witness: unready with zero agents; ok with count 1 after one
registration. -/
theorem C8_health_endpoints_witness :
    readyz [] = ReadyzResp.httpError 503 "No agents connected" ∧
    readyz ["agent-1"] = ReadyzResp.ok "ok" 1 := by
  refine ⟨(C8_health_endpoints []).1.mpr rfl, ?_⟩
  exact (C8_health_endpoints ["agent-1"]).2.1 (by decide)

/-- C9: for any cipher and base64 codec satisfying their inverse contracts
(the external `cryptography`/`base64` collaborators), the same derived key
on both sides, and any 12-byte nonce, decrypt_secret recovers exactly the
plaintext that encrypt_secret stored: the nonce-prepend/base64 packaging of
crypto.py splits back at offset 12 into the original nonce and ciphertext. -/
theorem C9_encrypt_decrypt_roundtrip
    (aesEnc aesDec : List Byte → List Byte → List Byte → List Byte)
    (b64encode b64decode : List Byte → List Byte)
    (key nonce plaintext : List Byte)
    (hb64 : ∀ l, b64decode (b64encode l) = l)
    (haes : ∀ n p, aesDec key n (aesEnc key n p) = p)
    (hnonce : nonce.length = 12) :
    decrypt_secret aesDec b64decode key
      (encrypt_secret aesEnc b64encode key nonce plaintext) = plaintext := by
  unfold decrypt_secret encrypt_secret
  simp only [hb64]
  show aesDec key ((nonce ++ aesEnc key nonce plaintext).take 12)
    ((nonce ++ aesEnc key nonce plaintext).drop 12) = plaintext
  rw [List.take_left' hnonce, List.drop_left' hnonce]
  exact haes nonce plaintext

/-- C9 witness: the packaging round-trip at a concrete plaintext, with the
identity as (trivially inverse) cipher and codec and an all-zero 12-byte
nonce. -/
theorem C9_encrypt_decrypt_roundtrip_witness :
    decrypt_secret (fun _ _ c => c) id []
      (encrypt_secret (fun _ _ p => p) id [] (List.replicate 12 (0 : Byte))
        [(7 : Byte)]) = [(7 : Byte)] :=
  C9_encrypt_decrypt_roundtrip (fun _ _ p => p) (fun _ _ c => c) id id []
    (List.replicate 12 (0 : Byte)) [(7 : Byte)]
    (fun _ => rfl) (fun _ _ => rfl) (List.length_replicate 12 (0 : Byte))

/-- Filtering by app id preserves the differ-only-in-ciphertext relation. -/
theorem sameButCiphertext_filter {s1 s2 : List Secret}
    (h : SameButCiphertext s1 s2) (A : String) :
    SameButCiphertext (s1.filter (fun s => s.app_id = A))
      (s2.filter (fun s => s.app_id = A)) := by
  induction h with
  | nil => exact List.Forall₂.nil
  | cons hxy _ ih =>
    obtain ⟨h1, h2, h3, h4⟩ := hxy
    rename_i x y t1 t2 _
    by_cases hA : x.app_id = A
    · have hB : y.app_id = A := h2 ▸ hA
      simp only [List.filter_cons]
      rw [if_pos (show decide (x.app_id = A) = true by simp [hA]),
        if_pos (show decide (y.app_id = A) = true by simp [hB])]
      exact List.Forall₂.cons ⟨h1, h2, h3, h4⟩ ih
    · have hB : ¬ y.app_id = A := fun hb => hA (h2 ▸ hb)
      simp only [List.filter_cons]
      rw [if_neg (show ¬ decide (x.app_id = A) = true by simp [hA]),
        if_neg (show ¬ decide (y.app_id = A) = true by simp [hB])]
      exact ih

/-- Truncation preserves the differ-only-in-ciphertext relation. -/
theorem sameButCiphertext_take {s1 s2 : List Secret}
    (h : SameButCiphertext s1 s2) (n : Nat) :
    SameButCiphertext (s1.take n) (s2.take n) := by
  induction h generalizing n with
  | nil =>
    simp only [List.take_nil]
    exact List.Forall₂.nil
  | cons hxy _ ih =>
    cases n with
    | zero => exact List.Forall₂.nil
    | succ m => exact List.Forall₂.cons hxy (ih m)

/-- Lists related by differ-only-in-ciphertext have equal projections. -/
theorem sameButCiphertext_map {s1 s2 : List Secret}
    (h : SameButCiphertext s1 s2) :
    s1.map projectSecret = s2.map projectSecret := by
  induction h with
  | nil => rfl
  | cons hxy _ ih =>
    obtain ⟨h1, h2, h3, h4⟩ := hxy
    simp only [List.map_cons, ih, projectSecret, h1, h2, h3, h4]

/-- C10: the rows get_secrets returns are exactly projections that carry no
encrypted_value field, and two secret stores that differ only in the
encrypted_value of corresponding entries produce identical responses for
every app id: the stored ciphertext never flows to the listing caller. -/
theorem C10_no_ciphertext_flow (s1 s2 : List Secret) (A : String)
    (h : SameButCiphertext s1 s2) :
    get_secrets s1 A = get_secrets s2 A ∧
    ∀ v ∈ get_secrets s1 A, ∃ s, s ∈ s1 ∧ s.app_id = A ∧
      v = projectSecret s := by
  constructor
  · unfold get_secrets
    exact sameButCiphertext_map (sameButCiphertext_take
      (sameButCiphertext_filter h A) 100)
  · intro v hv
    obtain ⟨s, hs, rfl⟩ := List.mem_map.mp hv
    have hfil : s ∈ s1.filter (fun s => s.app_id = A) :=
      List.mem_of_mem_take hs
    obtain ⟨hmem, hA⟩ := List.mem_filter.mp hfil
    exact ⟨s, hmem, of_decide_eq_true hA, rfl⟩

/-- C10 witness: two one-entry stores differing only in the stored
ciphertext give the same listing, whose single row is the projection
without the ciphertext. -/
theorem C10_no_ciphertext_flow_witness :
    get_secrets [⟨"s1", "app1", "API_KEY", "cipherA", "t0"⟩] "app1" =
      get_secrets [⟨"s1", "app1", "API_KEY", "cipherB", "t0"⟩] "app1" ∧
    ∀ v ∈ get_secrets [⟨"s1", "app1", "API_KEY", "cipherA", "t0"⟩] "app1",
      ∃ s, s ∈ [(⟨"s1", "app1", "API_KEY", "cipherA", "t0"⟩ : Secret)] ∧
        s.app_id = "app1" ∧ v = projectSecret s :=
  C10_no_ciphertext_flow [⟨"s1", "app1", "API_KEY", "cipherA", "t0"⟩]
    [⟨"s1", "app1", "API_KEY", "cipherB", "t0"⟩] "app1"
    (List.Forall₂.cons ⟨rfl, rfl, rfl, rfl⟩ List.Forall₂.nil)

end DSI
